import Mathlib

/-!
Verification of the go-micro client-side rpc codec adapter
(src/client/rpc_codec.go).

The adapter is shallowly embedded: Go string maps become association lists
with Go-map lookup semantics (a missing key yields the empty string, the
zero value), byte slices become lists of naturals, and the two external
collaborators — the wire codec and the transport channel — become records
of pure functions with their state threaded explicitly.  The three adapter
operations Write, Read and Close are transcribed statement by statement
from the source.
-/

/-- Go byte slices. -/
abbrev Bytes := List Nat

/-- Go map from string to string, as an association list. -/
abbrev HeaderMap := List (String × String)

/-- Go map indexing: the first binding of the key, or the zero value of
string (the empty string) when the key is absent. -/
def hget : HeaderMap → String → String
  | [], _ => ""
  | p :: t, k => if p.1 = k then p.2 else hget t k

/-- Go map assignment: replace the first binding of the key if present,
otherwise append a new binding. -/
def hset : HeaderMap → String → String → HeaderMap
  | [], k, v => [(k, v)]
  | p :: t, k, v => if p.1 = k then (k, v) :: t else p :: hset t k v

/-- The header-merge loop of rpcCodec.Write
(`for k, v := range m.Header { c.req.Header[k] = v }`). -/
def hmerge (dst src : HeaderMap) : HeaderMap :=
  src.foldl (fun acc p => hset acc p.1 p.2) dst

/-- transport.Message: the wire-facing record with a body and a header map. -/
structure TransportMessage where
  Header : HeaderMap
  Body : Bytes
deriving DecidableEq, Repr

/-- codec.MessageType of the external codec package (Error, Request,
Response); its Go zero value is the first constructor. -/
inductive MessageType where
  | Error
  | Request
  | Response
deriving DecidableEq, Repr

/-- codec.Message: the codec-facing envelope built per Write/Read call. -/
structure CodecMessage where
  Id : String
  MType : MessageType
  Target : String
  Method : String
  Error : String
  Header : HeaderMap
deriving DecidableEq, Repr

/-- The request record of rpc_codec.go (the free-list pointer carries no
observable state and is omitted). -/
structure Request where
  Service : String
  ServiceMethod : String
  Seq : String
deriving DecidableEq, Repr

/-- The response record of rpc_codec.go. -/
structure Response where
  ServiceMethod : String
  Seq : String
  Error : String
deriving DecidableEq, Repr

/-- Errors the adapter can produce: `internal id detail` models
errors.InternalServerError(id, detail) (the wrapped form carrying a fixed
component tag), `plain msg` models a bare sentinel created by errs.New. -/
inductive AdapterError where
  | internal (id : String) (detail : String)
  | plain (msg : String)
deriving DecidableEq, Repr

/-- errShutdown of rpc_codec.go: the sentinel for closing/closed
connections, created by errs.New. -/
def errShutdown : AdapterError := AdapterError.plain "connection is shut down"

/-- The reserved stream-end marker string of rpc_codec.go. -/
def lastStreamResponseError : String := "EOS"

/-- Outcome of a codec ReadHeader call: the error value, the envelope after
the call (ReadHeader receives the envelope by pointer and may set any of
its fields), and the unread remainder of the read-side buffer. -/
structure ReadHeaderOut where
  err : Option String
  msg : CodecMessage
  rest : Bytes
deriving DecidableEq, Repr

/-- The codec collaborator (codec.Codec), over body type β.  `write`
returns the bytes it serializes into the write-side buffer or an error;
`readHeader` consumes a prefix of the read-side buffer and updates the
envelope; `readBody` decodes a body from the remaining buffer; `close`
is the error its Close call would report. -/
structure Codec (β : Type) where
  write : CodecMessage → β → Except String Bytes
  readHeader : Bytes → CodecMessage → MessageType → ReadHeaderOut
  readBody : Bytes → Except String (β × Bytes)
  close : Option String

/-- The transport collaborator (transport.Client) with explicit state σ:
Send either fails or advances the state, Recv either fails or yields a
message and the next state, Close reports an optional error and the
closed state. -/
structure Client (σ : Type) where
  send : σ → TransportMessage → Except String σ
  recv : σ → Except String (TransportMessage × σ)
  close : σ → Option String × σ

/-- The rpcCodec adapter: one codec instance, one transport channel with
its current state, the bound outgoing transport message (mutated in place
by Write), and the two envelope-buffer sides. -/
structure rpcCodec (β σ : Type) where
  client : Client σ
  codec : Codec β
  clientState : σ
  req : TransportMessage
  wbuf : Bytes
  rbuf : Bytes

/-- newRpcCodec: fresh empty buffers around the given bound message,
transport channel (with its current state) and codec instance. -/
def newRpcCodec {β σ : Type} (req : TransportMessage) (client : Client σ)
    (c : Codec β) (s : σ) : rpcCodec β σ :=
  { client := client, codec := c, clientState := s, req := req,
    wbuf := [], rbuf := [] }

/-- The message envelope built by rpcCodec.Write (lines 111-121): Id, Target
and Method from the request, type Request, and a header carrying the three
canonical vendor-prefixed keys.  fmt.Sprintf of a string is the string. -/
def writeEnvelope (req : Request) : CodecMessage :=
  { Id := req.Seq
    MType := MessageType.Request
    Target := req.Service
    Method := req.ServiceMethod
    Error := ""
    Header := [("X-Micro-Id", req.Seq),
               ("X-Micro-Service", req.Service),
               ("X-Micro-Method", req.ServiceMethod)] }

/-- The zero-valued codec.Message of rpcCodec.Read (line 143) after its
Header is set to the received transport message's header (line 145). -/
def initialEnvelope (h : HeaderMap) : CodecMessage :=
  { Id := "", MType := MessageType.Error, Target := "", Method := "",
    Error := "", Header := h }

/-- rpcCodec.Write (lines 108-133): reset the write-side buffer, build the
envelope, let the codec serialize (failure wrapped with the codec tag and
nothing sent), copy the serialized bytes into the bound message's body,
merge the envelope header into the bound message's header, and send
(failure wrapped with the transport tag, no retry). -/
def rpcCodec.Write {β σ : Type} (c : rpcCodec β σ) (req : Request)
    (body : β) : Option AdapterError × rpcCodec β σ :=
  let c := { c with wbuf := [] }
  let m := writeEnvelope req
  match c.codec.write m body with
  | Except.error e =>
      (some (AdapterError.internal "go.micro.client.codec" e), c)
  | Except.ok bs =>
      let c := { c with wbuf := bs }
      let c := { c with req := { Header := hmerge c.req.Header m.Header,
                                 Body := c.wbuf } }

      match c.client.send c.clientState c.req with
      | Except.error e =>
          (some (AdapterError.internal "go.micro.client.transport" e), c)
      | Except.ok s' => (none, { c with clientState := s' })

/-- Outcome of rpcCodec.Read: the returned error, the response record after
the call, the decoded body if ReadBody ran and succeeded, and the adapter
afterwards. -/
structure ReadResult (β σ : Type) where
  err : Option AdapterError
  resp : Response
  body : Option β
  st : rpcCodec β σ

/-- rpcCodec.Read (lines 135-177): receive a message (failure wrapped with
the transport tag), load its body into the read-side buffer, have the codec
parse the header into an envelope whose Header was preset to the transport
header, populate the response from the envelope, apply the three
independent transport-header fallbacks, only then report a header-parse
failure (wrapped with the codec tag), else decode the body (failure
wrapped with the codec tag). -/
def rpcCodec.Read {β σ : Type} (c : rpcCodec β σ) (r : Response) :
    ReadResult β σ :=
  match c.client.recv c.clientState with
  | Except.error e =>
      ⟨some (AdapterError.internal "go.micro.client.transport" e), r, none, c⟩
  | Except.ok (m, s') =>
      let c := { c with clientState := s', rbuf := m.Body }
      let out := c.codec.readHeader c.rbuf (initialEnvelope m.Header)
        MessageType.Response
      let me := out.msg
      let c := { c with rbuf := out.rest }
      let r := { r with ServiceMethod := me.Method, Seq := me.Id,
                        Error := me.Error }
      let r := if me.Error = ""
        then { r with Error := hget me.Header "X-Micro-Error" } else r
      let r := if me.Method = ""
        then { r with ServiceMethod := hget me.Header "X-Micro-Method" } else r
      let r := if me.Id = ""
        then { r with Seq := hget me.Header "X-Micro-Id" } else r
      match out.err with
      | some e =>
          ⟨some (AdapterError.internal "go.micro.client.codec" e), r, none, c⟩
      | none =>
          match c.codec.readBody c.rbuf with
          | Except.error e =>
              ⟨some (AdapterError.internal "go.micro.client.codec" e), r,
               none, c⟩
          | Except.ok (b, rest) =>
              ⟨none, r, some b, { c with rbuf := rest }⟩

/-- rpcCodec.Close (lines 179-186): reset both buffer sides (readWriteCloser
Close always succeeds), call the codec's Close discarding its result (line
181 ignores the returned error), then close the transport channel, whose
failure alone is wrapped with the transport tag and returned. -/
def rpcCodec.Close {β σ : Type} (c : rpcCodec β σ) :
    Option AdapterError × rpcCodec β σ :=
  let c := { c with rbuf := [], wbuf := [] }
  let _ := c.codec.close
  match c.client.close c.clientState with
  | (some e, s') =>
      (some (AdapterError.internal "go.micro.client.transport" e),
       { c with clientState := s' })
  | (none, s') => (none, { c with clientState := s' })

/-- Modelled from the spec: the concrete codec construction functions
(the proto, json, jsonrpc, protorpc and raw byte packages referenced by the
registry) live outside the examined source; the registry maps content types
to distinct construction functions, represented here by distinct tags. -/
inductive NewCodecRef where
  | protoNewCodec
  | jsonNewCodec
  | jsonrpcNewCodec
  | protorpcNewCodec
  | rawNewCodec
deriving DecidableEq, Repr

/-- DefaultContentType of rpc_codec.go (line 69). -/
def DefaultContentType : String := "application/protobuf"

/-- DefaultCodecs of rpc_codec.go (lines 71-77): the content-type registry. -/
def DefaultCodecs : List (String × NewCodecRef) :=
  [("application/protobuf", NewCodecRef.protoNewCodec),
   ("application/json", NewCodecRef.jsonNewCodec),
   ("application/json-rpc", NewCodecRef.jsonrpcNewCodec),
   ("application/proto-rpc", NewCodecRef.protorpcNewCodec),
   ("application/octet-stream", NewCodecRef.rawNewCodec)]

/-- Go map lookup on the registry: the entry whose key is exactly the
given content type. -/
def lookupCodec (ct : String) : Option NewCodecRef :=
  (DefaultCodecs.find? (fun p => p.1 == ct)).map (fun p => p.2)

/-! Concrete collaborators used to exercise the adapter. -/

/-- Modelled from the spec: the raw/byte-passthrough codec (the codec/bytes
package, outside the examined source): writing emits the body bytes
unchanged, ReadHeader reads nothing and leaves the envelope as given,
ReadBody yields the whole remaining buffer. -/
def rawCodec : Codec Bytes :=
  { write := fun _ body => Except.ok body
    readHeader := fun bs me _ => ⟨none, me, bs⟩
    readBody := fun bs => Except.ok (bs, [])
    close := none }

/-- A loopback transport channel: Send stores the message, Recv yields the
stored message verbatim and empties the channel, Close succeeds. -/
def loopback : Client (Option TransportMessage) :=
  { send := fun _ m => Except.ok (some m)
    recv := fun s => match s with
      | some m => Except.ok (m, none)
      | none => Except.error "no message"
    close := fun s => (none, s) }

/-- A transport channel with a closed flag: after Close, Send and Recv fail
with a generic closed-connection transport error. -/
def closableClient : Client Bool :=
  { send := fun closed _ => if closed
      then Except.error "use of closed network connection"
      else Except.ok closed
    recv := fun closed => if closed
      then Except.error "use of closed network connection"
      else Except.error "nothing to receive"
    close := fun _ => (none, true) }

/-- The sample request of the end-to-end scenario. -/
def sampleRequest : Request :=
  { Service := "Greeter", ServiceMethod := "Greeter.Hello", Seq := "1" }

/-- The sample body of the end-to-end scenario: the bytes of the JSON
object binding name to world. -/
def sampleBody : Bytes :=
  [123, 34, 110, 97, 109, 101, 34, 58, 34, 119, 111, 114, 108, 100, 34, 125]

/-! Basic lemmas about the header map operations. -/

theorem hget_hset_self (h : HeaderMap) (k v : String) :
    hget (hset h k v) k = v := by
  induction h with
  | nil => simp [hset, hget]
  | cons p t ih =>
      by_cases hp : p.1 = k
      · simp [hset, hget, hp]
      · simp [hset, hget, hp, ih]

theorem hget_hset_ne (h : HeaderMap) (k k' v : String) (hne : k ≠ k') :
    hget (hset h k v) k' = hget h k' := by
  induction h with
  | nil => simp [hset, hget, hne]
  | cons p t ih =>
      by_cases hp : p.1 = k
      · simp [hset, hget, hp, hne]
      · simp only [hset, hp, if_false]
        by_cases hp' : p.1 = k'
        · simp [hget, hp']
        · simp [hget, hp', ih]

theorem hmerge_env (h : HeaderMap) (req : Request) :
    hmerge h (writeEnvelope req).Header =
      hset (hset (hset h "X-Micro-Id" req.Seq)
        "X-Micro-Service" req.Service) "X-Micro-Method" req.ServiceMethod := by
  simp [hmerge, writeEnvelope, List.foldl]

/-! Characterization of rpcCodec.Read, shared by several results below. -/

theorem rpcRead_resp_fields {β σ : Type} (c : rpcCodec β σ) (r₀ : Response)
    (m : TransportMessage) (s' : σ) (out : ReadHeaderOut)
    (hrecv : c.client.recv c.clientState = Except.ok (m, s'))
    (hrh : c.codec.readHeader m.Body (initialEnvelope m.Header)
      MessageType.Response = out) :
    (c.Read r₀).resp.Error =
      (if out.msg.Error = "" then hget out.msg.Header "X-Micro-Error"
       else out.msg.Error) ∧
    (c.Read r₀).resp.ServiceMethod =
      (if out.msg.Method = "" then hget out.msg.Header "X-Micro-Method"
       else out.msg.Method) ∧
    (c.Read r₀).resp.Seq =
      (if out.msg.Id = "" then hget out.msg.Header "X-Micro-Id"
       else out.msg.Id) := by
  obtain ⟨err, msg, rest⟩ := out
  simp only [rpcCodec.Read, hrecv]
  rw [hrh]
  cases err with
  | some e =>
      by_cases h1 : msg.Error = "" <;> by_cases h2 : msg.Method = "" <;>
        by_cases h3 : msg.Id = "" <;> simp [h1, h2, h3]
  | none =>
      cases hb : c.codec.readBody rest with
      | error e =>
          by_cases h1 : msg.Error = "" <;> by_cases h2 : msg.Method = "" <;>
            by_cases h3 : msg.Id = "" <;> simp [hb, h1, h2, h3]
      | ok p =>
          by_cases h1 : msg.Error = "" <;> by_cases h2 : msg.Method = "" <;>
            by_cases h3 : msg.Id = "" <;> simp [hb, h1, h2, h3]

theorem rpcRead_header_err {β σ : Type} (c : rpcCodec β σ) (r₀ : Response)
    (m : TransportMessage) (s' : σ) (out : ReadHeaderOut) (e : String)
    (hrecv : c.client.recv c.clientState = Except.ok (m, s'))
    (hrh : c.codec.readHeader m.Body (initialEnvelope m.Header)
      MessageType.Response = out)
    (herr : out.err = some e) :
    (c.Read r₀).err = some (AdapterError.internal "go.micro.client.codec" e) ∧
    (c.Read r₀).body = none := by
  obtain ⟨err, msg, rest⟩ := out
  cases herr
  simp only [rpcCodec.Read, hrecv]
  rw [hrh]
  by_cases h1 : msg.Error = "" <;> by_cases h2 : msg.Method = "" <;>
    by_cases h3 : msg.Id = "" <;> simp [h1, h2, h3]

theorem rpcRead_ok {β σ : Type} (c : rpcCodec β σ) (r₀ : Response)
    (m : TransportMessage) (s' : σ) (out : ReadHeaderOut) (b : β)
    (rest2 : Bytes)
    (hrecv : c.client.recv c.clientState = Except.ok (m, s'))
    (hrh : c.codec.readHeader m.Body (initialEnvelope m.Header)
      MessageType.Response = out)
    (herr : out.err = none)
    (hrb : c.codec.readBody out.rest = Except.ok (b, rest2)) :
    (c.Read r₀).err = none ∧ (c.Read r₀).body = some b := by
  obtain ⟨err, msg, rest⟩ := out
  cases herr
  simp only [rpcCodec.Read, hrecv]
  rw [hrh]
  simp only at hrb
  by_cases h1 : msg.Error = "" <;> by_cases h2 : msg.Method = "" <;>
    by_cases h3 : msg.Id = "" <;> simp [hrb, h1, h2, h3]

/-! Header lookup facts for the merged outgoing header. -/

theorem hget_cons_self (k v : String) (t : HeaderMap) :
    hget ((k, v) :: t) k = v := by
  simp [hget]

theorem hget_cons_ne (k k' v : String) (t : HeaderMap) (h : k ≠ k') :
    hget ((k, v) :: t) k' = hget t k' := by
  simp [hget, h]

theorem hget_hmerge_env_id (h : HeaderMap) (req : Request) :
    hget (hmerge h (writeEnvelope req).Header) "X-Micro-Id" = req.Seq := by
  rw [hmerge_env, hget_hset_ne _ _ _ _ (by decide),
    hget_hset_ne _ _ _ _ (by decide), hget_hset_self]

theorem hget_hmerge_env_service (h : HeaderMap) (req : Request) :
    hget (hmerge h (writeEnvelope req).Header) "X-Micro-Service" =
      req.Service := by
  rw [hmerge_env, hget_hset_ne _ _ _ _ (by decide), hget_hset_self]

theorem hget_hmerge_env_method (h : HeaderMap) (req : Request) :
    hget (hmerge h (writeEnvelope req).Header) "X-Micro-Method" =
      req.ServiceMethod := by
  rw [hmerge_env, hget_hset_self]

theorem hget_hmerge_env_other (h : HeaderMap) (req : Request) (k : String)
    (h1 : k ≠ "X-Micro-Id") (h2 : k ≠ "X-Micro-Service")
    (h3 : k ≠ "X-Micro-Method") :
    hget (hmerge h (writeEnvelope req).Header) k = hget h k := by
  rw [hmerge_env, hget_hset_ne _ _ _ _ (Ne.symm h3),
    hget_hset_ne _ _ _ _ (Ne.symm h2), hget_hset_ne _ _ _ _ (Ne.symm h1)]

/-! Characterization of rpcCodec.Write, shared by several results below. -/

theorem rpcWrite_codec_err {β σ : Type} (c : rpcCodec β σ) (req : Request)
    (body : β) (e : String)
    (hw : c.codec.write (writeEnvelope req) body = Except.error e) :
    (c.Write req body).1 =
      some (AdapterError.internal "go.micro.client.codec" e) ∧
    (c.Write req body).2.clientState = c.clientState ∧
    (c.Write req body).2.req = c.req := by
  simp [rpcCodec.Write, hw]

theorem rpcWrite_ok_state {β σ : Type} (c : rpcCodec β σ) (req : Request)
    (body : β) (bs : Bytes)
    (hw : c.codec.write (writeEnvelope req) body = Except.ok bs) :
    (c.Write req body).2.req =
      ⟨hmerge c.req.Header (writeEnvelope req).Header, bs⟩ ∧
    (c.Write req body).2.wbuf = bs ∧
    (c.Write req body).2.client = c.client ∧
    (c.Write req body).2.codec = c.codec := by
  simp only [rpcCodec.Write, hw]
  cases hs : c.client.send c.clientState
      ⟨hmerge c.req.Header (writeEnvelope req).Header, bs⟩ with
  | error e => simp [hs]
  | ok s' => simp [hs]

theorem rpcWrite_send_err {β σ : Type} (c : rpcCodec β σ) (req : Request)
    (body : β) (bs : Bytes) (e : String)
    (hw : c.codec.write (writeEnvelope req) body = Except.ok bs)
    (hs : c.client.send c.clientState
      ⟨hmerge c.req.Header (writeEnvelope req).Header, bs⟩ =
        Except.error e) :
    (c.Write req body).1 =
      some (AdapterError.internal "go.micro.client.transport" e) ∧
    (c.Write req body).2.clientState = c.clientState := by
  simp [rpcCodec.Write, hw, hs]

theorem rpcWrite_send_ok {β σ : Type} (c : rpcCodec β σ) (req : Request)
    (body : β) (bs : Bytes) (s' : σ)
    (hw : c.codec.write (writeEnvelope req) body = Except.ok bs)
    (hs : c.client.send c.clientState
      ⟨hmerge c.req.Header (writeEnvelope req).Header, bs⟩ = Except.ok s') :
    (c.Write req body).1 = none ∧
    (c.Write req body).2.clientState = s' := by
  simp [rpcCodec.Write, hw, hs]

/-- Every error rpcCodec.Write can return is a wrapped internal error. -/
theorem rpcWrite_err_shape {β σ : Type} (c : rpcCodec β σ) (req : Request)
    (body : β) :
    (c.Write req body).1 = none ∨
    ∃ id d, (c.Write req body).1 = some (AdapterError.internal id d) := by
  cases hw : c.codec.write (writeEnvelope req) body with
  | error e => exact Or.inr ⟨_, _, (rpcWrite_codec_err c req body e hw).1⟩
  | ok bs =>
      cases hs : c.client.send c.clientState
          ⟨hmerge c.req.Header (writeEnvelope req).Header, bs⟩ with
      | error e =>
          exact Or.inr ⟨_, _, (rpcWrite_send_err c req body bs e hw hs).1⟩
      | ok s' => exact Or.inl (rpcWrite_send_ok c req body bs s' hw hs).1

/-- Every error rpcCodec.Read can return is a wrapped internal error. -/
theorem rpcRead_err_shape {β σ : Type} (c : rpcCodec β σ) (r₀ : Response) :
    (c.Read r₀).err = none ∨
    ∃ id d, (c.Read r₀).err = some (AdapterError.internal id d) := by
  cases hr : c.client.recv c.clientState with
  | error e =>
      refine Or.inr ⟨"go.micro.client.transport", e, ?_⟩
      simp [rpcCodec.Read, hr]
  | ok p =>
      obtain ⟨m, s'⟩ := p
      cases hrh : c.codec.readHeader m.Body (initialEnvelope m.Header)
          MessageType.Response with
      | mk err msg rest =>
          cases err with
          | some e =>
              refine Or.inr ⟨"go.micro.client.codec", e, ?_⟩
              exact (rpcRead_header_err c r₀ m s' ⟨some e, msg, rest⟩ e hr
                hrh rfl).1
          | none =>
              cases hb : c.codec.readBody rest with
              | error e =>
                  refine Or.inr ⟨"go.micro.client.codec", e, ?_⟩
                  simp only [rpcCodec.Read, hr]
                  rw [hrh]
                  by_cases h1 : msg.Error = "" <;>
                    by_cases h2 : msg.Method = "" <;>
                      by_cases h3 : msg.Id = "" <;> simp [hb, h1, h2, h3]
              | ok p2 =>
                  exact Or.inl (rpcRead_ok c r₀ m s' ⟨none, msg, rest⟩ p2.1
                    p2.2 hr hrh rfl hb).1

/-! Concrete adapters used by the witnesses. -/

/-- A received message carrying all three canonical transport headers. -/
def c1msg : TransportMessage :=
  ⟨[("X-Micro-Error", "boom"), ("X-Micro-Method", "Greeter.Hello"),
    ("X-Micro-Id", "42")], []⟩

/-- An adapter whose next Recv yields c1msg. -/
def c1adapter : rpcCodec Bytes (Option TransportMessage) :=
  newRpcCodec ⟨[], []⟩ loopback rawCodec (some c1msg)

/-- C1: on Read, each envelope field left empty by the codec header parse is
overwritten with the transport-header value of its canonical key — Error
from X-Micro-Error, ServiceMethod from X-Micro-Method, Seq from X-Micro-Id —
each of the three independently of the others, and a non-empty envelope
field is never overwritten. -/
theorem c1_read_header_fallbacks {β σ : Type} (c : rpcCodec β σ)
    (r₀ : Response) (m : TransportMessage) (s' : σ) (out : ReadHeaderOut)
    (hrecv : c.client.recv c.clientState = Except.ok (m, s'))
    (hrh : c.codec.readHeader m.Body (initialEnvelope m.Header)
      MessageType.Response = out)
    (hpres : out.msg.Header = m.Header) :
    (c.Read r₀).resp.Error =
      (if out.msg.Error = "" then hget m.Header "X-Micro-Error"
       else out.msg.Error) ∧
    (c.Read r₀).resp.ServiceMethod =
      (if out.msg.Method = "" then hget m.Header "X-Micro-Method"
       else out.msg.Method) ∧
    (c.Read r₀).resp.Seq =
      (if out.msg.Id = "" then hget m.Header "X-Micro-Id"
       else out.msg.Id) := by
  have h := rpcRead_resp_fields c r₀ m s' out hrecv hrh
  rw [hpres] at h
  exact h

/-- C1 witness: with the raw codec (whose header parse leaves every envelope
field empty) all three response fields come from the transport headers. -/
theorem c1_read_header_fallbacks_witness :
    c1adapter.client.recv c1adapter.clientState = Except.ok (c1msg, none) ∧
    c1adapter.codec.readHeader c1msg.Body (initialEnvelope c1msg.Header)
      MessageType.Response =
      ⟨none, initialEnvelope c1msg.Header, c1msg.Body⟩ ∧
    (initialEnvelope c1msg.Header).Header = c1msg.Header ∧
    (c1adapter.Read ⟨"", "", ""⟩).resp.Error = "boom" ∧
    (c1adapter.Read ⟨"", "", ""⟩).resp.ServiceMethod = "Greeter.Hello" ∧
    (c1adapter.Read ⟨"", "", ""⟩).resp.Seq = "42" := by
  have h := c1_read_header_fallbacks c1adapter ⟨"", "", ""⟩ c1msg none
    ⟨none, initialEnvelope c1msg.Header, c1msg.Body⟩ rfl rfl rfl
  refine ⟨rfl, rfl, rfl, ?_, ?_, ?_⟩
  · rw [h.1]; decide
  · rw [h.2.1]; decide
  · rw [h.2.2]; decide

/-- A codec whose header parse always fails, leaving the envelope as it
received it. -/
def failHeaderCodec : Codec Bytes :=
  { rawCodec with readHeader := fun bs me _ => ⟨some "bad header", me, bs⟩ }

/-- A received message for the header-parse-failure scenario. -/
def c3msg : TransportMessage :=
  ⟨[("X-Micro-Error", "remote failed"), ("X-Micro-Method", "Say.Hello"),
    ("X-Micro-Id", "7")], [1, 2]⟩

/-- An adapter whose next Recv yields c3msg and whose codec fails on
ReadHeader. -/
def c3adapter : rpcCodec Bytes (Option TransportMessage) :=
  newRpcCodec ⟨[], []⟩ loopback failHeaderCodec (some c3msg)

/-- C3: when the codec's ReadHeader fails, Read still populates the response
from the envelope and applies all three transport-header fallbacks, and only
then returns the header-parse error wrapped as a codec error, with no body
decoded: the caller gets a partially populated Response with a non-nil
error. -/
theorem c3_header_error_after_fallbacks {β σ : Type} (c : rpcCodec β σ)
    (r₀ : Response) (m : TransportMessage) (s' : σ) (out : ReadHeaderOut)
    (e : String)
    (hrecv : c.client.recv c.clientState = Except.ok (m, s'))
    (hrh : c.codec.readHeader m.Body (initialEnvelope m.Header)
      MessageType.Response = out)
    (hpres : out.msg.Header = m.Header)
    (herr : out.err = some e) :
    (c.Read r₀).err =
      some (AdapterError.internal "go.micro.client.codec" e) ∧
    (c.Read r₀).body = none ∧
    (c.Read r₀).resp.Error =
      (if out.msg.Error = "" then hget m.Header "X-Micro-Error"
       else out.msg.Error) ∧
    (c.Read r₀).resp.ServiceMethod =
      (if out.msg.Method = "" then hget m.Header "X-Micro-Method"
       else out.msg.Method) ∧
    (c.Read r₀).resp.Seq =
      (if out.msg.Id = "" then hget m.Header "X-Micro-Id"
       else out.msg.Id) := by
  have h1 := rpcRead_header_err c r₀ m s' out e hrecv hrh herr
  have h2 := rpcRead_resp_fields c r₀ m s' out hrecv hrh
  rw [hpres] at h2
  exact ⟨h1.1, h1.2, h2.1, h2.2.1, h2.2.2⟩

/-- C3 witness: a failing header parse still yields the three fallback
fields together with the wrapped codec error and no body. -/
theorem c3_header_error_after_fallbacks_witness :
    c3adapter.client.recv c3adapter.clientState = Except.ok (c3msg, none) ∧
    c3adapter.codec.readHeader c3msg.Body (initialEnvelope c3msg.Header)
      MessageType.Response =
      ⟨some "bad header", initialEnvelope c3msg.Header, c3msg.Body⟩ ∧
    (initialEnvelope c3msg.Header).Header = c3msg.Header ∧
    (c3adapter.Read ⟨"", "", ""⟩).err =
      some (AdapterError.internal "go.micro.client.codec" "bad header") ∧
    (c3adapter.Read ⟨"", "", ""⟩).body = none ∧
    (c3adapter.Read ⟨"", "", ""⟩).resp.Error = "remote failed" ∧
    (c3adapter.Read ⟨"", "", ""⟩).resp.ServiceMethod = "Say.Hello" ∧
    (c3adapter.Read ⟨"", "", ""⟩).resp.Seq = "7" := by
  have h := c3_header_error_after_fallbacks c3adapter ⟨"", "", ""⟩ c3msg none
    ⟨some "bad header", initialEnvelope c3msg.Header, c3msg.Body⟩
    "bad header" rfl rfl rfl rfl
  refine ⟨rfl, rfl, rfl, h.1, h.2.1, ?_, ?_, ?_⟩
  · rw [h.2.2.1]; decide
  · rw [h.2.2.2.1]; decide
  · rw [h.2.2.2.2]; decide

/-- A received message whose transport header carries the stream-end marker
while the raw codec leaves the envelope's Error empty. -/
def c7msg : TransportMessage := ⟨[("X-Micro-Error", "EOS")], []⟩

/-- An adapter whose next Recv yields c7msg. -/
def c7adapter : rpcCodec Bytes (Option TransportMessage) :=
  newRpcCodec ⟨[], []⟩ loopback rawCodec (some c7msg)

/-- C7: the reserved stream-end marker is the fixed string EOS, and when the
received transport header maps the canonical error key to EOS while the
codec-parsed envelope's Error is empty, the resulting Response.Error equals
EOS exactly. -/
theorem c7_eos_marker :
    lastStreamResponseError = "EOS" ∧
    ∀ {β σ : Type} (c : rpcCodec β σ) (r₀ : Response) (m : TransportMessage)
      (s' : σ) (out : ReadHeaderOut),
      c.client.recv c.clientState = Except.ok (m, s') →
      c.codec.readHeader m.Body (initialEnvelope m.Header)
        MessageType.Response = out →
      out.msg.Header = m.Header →
      out.msg.Error = "" →
      hget m.Header "X-Micro-Error" = lastStreamResponseError →
      (c.Read r₀).resp.Error = lastStreamResponseError := by
  refine ⟨rfl, ?_⟩
  intro β σ c r₀ m s' out hrecv hrh hpres he hk
  have h := (rpcRead_resp_fields c r₀ m s' out hrecv hrh).1
  rw [h, if_pos he, hpres, hk]

/-- C7 witness: the EOS transport header surfaces as Response.Error when the
envelope's native Error is empty. -/
theorem c7_eos_marker_witness :
    c7adapter.client.recv c7adapter.clientState = Except.ok (c7msg, none) ∧
    c7adapter.codec.readHeader c7msg.Body (initialEnvelope c7msg.Header)
      MessageType.Response =
      ⟨none, initialEnvelope c7msg.Header, c7msg.Body⟩ ∧
    (initialEnvelope c7msg.Header).Error = "" ∧
    hget c7msg.Header "X-Micro-Error" = lastStreamResponseError ∧
    (c7adapter.Read ⟨"", "", ""⟩).resp.Error = lastStreamResponseError := by
  refine ⟨rfl, rfl, rfl, by decide, ?_⟩
  exact c7_eos_marker.2 c7adapter ⟨"", "", ""⟩ c7msg none
    ⟨none, initialEnvelope c7msg.Header, c7msg.Body⟩ rfl rfl rfl rfl
    (by decide)

/-- The adapter after Close was called on it: the transport channel of
closableClient is in its closed state. -/
def closedAdapter : rpcCodec Bytes Bool :=
  ((newRpcCodec ⟨[], []⟩ closableClient rawCodec false).Close).2

/-- C2 counterexample: on an adapter whose Close has already run, Write does
not fail with the shutdown sentinel — the failed send surfaces as a generic
wrapped transport error instead. -/
theorem c2_shutdown_counterexample :
    (closedAdapter.Write sampleRequest sampleBody).1 =
      some (AdapterError.internal "go.micro.client.transport"
        "use of closed network connection") ∧
    (closedAdapter.Write sampleRequest sampleBody).1 ≠ some errShutdown ∧
    (closedAdapter.Read ⟨"", "", ""⟩).err ≠ some errShutdown := by
  refine ⟨by decide, by decide, by decide⟩

/-- C2 amended: the errShutdown sentinel with message "connection is shut
down" is declared, but the adapter's Write and Read never return it — on any
adapter, closed or not, every failure they return is a wrapped internal
codec or transport error, so a call after Close fails with a generic
transport error rather than the shutdown sentinel. -/
theorem c2_shutdown_never_returned :
    errShutdown = AdapterError.plain "connection is shut down" ∧
    ∀ (β σ : Type) (c : rpcCodec β σ) (req : Request) (body : β)
      (r₀ : Response),
      (c.Write req body).1 ≠ some errShutdown ∧
      (c.Read r₀).err ≠ some errShutdown := by
  refine ⟨rfl, ?_⟩
  intro β σ c req body r₀
  constructor
  · rcases rpcWrite_err_shape c req body with h | ⟨id, d, h⟩ <;>
      rw [h] <;> simp [errShutdown]
  · rcases rpcRead_err_shape c r₀ with h | ⟨id, d, h⟩ <;>
      rw [h] <;> simp [errShutdown]

/-- C2 witness: the amended statement applied to the closed concrete
adapter. -/
theorem c2_shutdown_never_returned_witness :
    (closedAdapter.Write sampleRequest sampleBody).1 ≠ some errShutdown ∧
    (closedAdapter.Read ⟨"", "", ""⟩).err ≠ some errShutdown :=
  c2_shutdown_never_returned.2 Bytes Bool closedAdapter sampleRequest
    sampleBody ⟨"", "", ""⟩

/-- A codec whose Close reports a failure. -/
def badCloseCodec : Codec Bytes :=
  { rawCodec with close := some "codec close failed" }

/-- C4 counterexample: a codec close failure together with a successful
transport close makes rpcCodec.Close return nil — a close-time failure is
silently swallowed, because line 181 discards the codec's Close error. -/
theorem c4_close_counterexample :
    badCloseCodec.close = some "codec close failed" ∧
    ((newRpcCodec ⟨[], []⟩ loopback badCloseCodec none).Close).1 = none := by
  refine ⟨rfl, by decide⟩

/-- C4 amended: Close resets both buffer sides and closes the transport
channel whatever the codec's Close returns (the codec close result is
discarded, so the outcome does not depend on the codec at all), and a
transport close failure is reported wrapped with the transport tag; Close
returns a non-nil error exactly when the transport close fails, so a codec
close failure alone is swallowed. -/
theorem c4_close_releases :
    ∀ (β σ : Type) (c : rpcCodec β σ),
      (c.Close).1 = ((c.client.close c.clientState).1).map
        (AdapterError.internal "go.micro.client.transport") ∧
      (c.Close).2.wbuf = [] ∧
      (c.Close).2.rbuf = [] ∧
      (c.Close).2.clientState = (c.client.close c.clientState).2 ∧
      ∀ (cod' : Codec β),
        ({ c with codec := cod' } : rpcCodec β σ).Close.1 = (c.Close).1 := by
  intro β σ c
  cases hcl : c.client.close c.clientState with
  | mk oe s' =>
      cases oe with
      | some e =>
          refine ⟨?_, ?_, ?_, ?_, ?_⟩ <;>
            simp [rpcCodec.Close, hcl]
      | none =>
          refine ⟨?_, ?_, ?_, ?_, ?_⟩ <;>
            simp [rpcCodec.Close, hcl]

/-- C4 witness: the amended statement applied to the concrete adapter whose
codec close fails while the transport close succeeds. -/
theorem c4_close_releases_witness :
    ((newRpcCodec ⟨[], []⟩ loopback badCloseCodec none).Close).1 =
      (((newRpcCodec ⟨[], []⟩ loopback badCloseCodec none).client.close
        (newRpcCodec ⟨[], []⟩ loopback badCloseCodec none).clientState).1).map
        (AdapterError.internal "go.micro.client.transport") ∧
    ((newRpcCodec ⟨[], []⟩ loopback badCloseCodec none).Close).2.wbuf = [] :=
  ⟨(c4_close_releases Bytes (Option TransportMessage)
      (newRpcCodec ⟨[], []⟩ loopback badCloseCodec none)).1,
   (c4_close_releases Bytes (Option TransportMessage)
      (newRpcCodec ⟨[], []⟩ loopback badCloseCodec none)).2.1⟩

/-- hget on the envelope header: the canonical id key. -/
theorem hget_env_id (req : Request) :
    hget (writeEnvelope req).Header "X-Micro-Id" = req.Seq := by
  simp only [writeEnvelope]
  exact hget_cons_self _ _ _

/-- hget on the envelope header: the canonical service key. -/
theorem hget_env_service (req : Request) :
    hget (writeEnvelope req).Header "X-Micro-Service" = req.Service := by
  simp only [writeEnvelope]
  rw [hget_cons_ne _ _ _ _ (by decide)]
  exact hget_cons_self _ _ _

/-- hget on the envelope header: the canonical method key. -/
theorem hget_env_method (req : Request) :
    hget (writeEnvelope req).Header "X-Micro-Method" =
      req.ServiceMethod := by
  simp only [writeEnvelope]
  rw [hget_cons_ne _ _ _ _ (by decide), hget_cons_ne _ _ _ _ (by decide)]
  exact hget_cons_self _ _ _

/-- A codec whose Write always fails. -/
def failWriteCodec : Codec Bytes :=
  { rawCodec with write := fun _ _ => Except.error "encode failed" }

/-- An adapter whose codec fails to serialize. -/
def c5adapter : rpcCodec Bytes (Option TransportMessage) :=
  newRpcCodec ⟨[], []⟩ loopback failWriteCodec none

/-- C5: a codec Write failure is returned wrapped with the codec tag and
Send is not reached (the transport state and the bound message are
untouched); a Send failure is returned wrapped with the transport tag with
no retry (the transport state is left as it was before the single failed
send). -/
theorem c5_write_failure_paths {β σ : Type} (c : rpcCodec β σ)
    (req : Request) (body : β) (e : String) (bs : Bytes) :
    (c.codec.write (writeEnvelope req) body = Except.error e →
      (c.Write req body).1 =
        some (AdapterError.internal "go.micro.client.codec" e) ∧
      (c.Write req body).2.clientState = c.clientState ∧
      (c.Write req body).2.req = c.req) ∧
    (c.codec.write (writeEnvelope req) body = Except.ok bs →
      c.client.send c.clientState
        ⟨hmerge c.req.Header (writeEnvelope req).Header, bs⟩ =
          Except.error e →
      (c.Write req body).1 =
        some (AdapterError.internal "go.micro.client.transport" e) ∧
      (c.Write req body).2.clientState = c.clientState) :=
  ⟨fun hw => rpcWrite_codec_err c req body e hw,
   fun hw hs => rpcWrite_send_err c req body bs e hw hs⟩

/-- C5 witness: a failing codec write yields the wrapped codec error with
nothing sent, and a failing send on the closed transport yields the wrapped
transport error. -/
theorem c5_write_failure_paths_witness :
    c5adapter.codec.write (writeEnvelope sampleRequest) sampleBody =
      Except.error "encode failed" ∧
    (c5adapter.Write sampleRequest sampleBody).1 =
      some (AdapterError.internal "go.micro.client.codec" "encode failed") ∧
    (c5adapter.Write sampleRequest sampleBody).2.clientState =
      c5adapter.clientState ∧
    closedAdapter.codec.write (writeEnvelope sampleRequest) sampleBody =
      Except.ok sampleBody ∧
    closedAdapter.client.send closedAdapter.clientState
      ⟨hmerge closedAdapter.req.Header (writeEnvelope sampleRequest).Header,
       sampleBody⟩ =
      Except.error "use of closed network connection" ∧
    (closedAdapter.Write sampleRequest sampleBody).1 =
      some (AdapterError.internal "go.micro.client.transport"
        "use of closed network connection") := by
  have h1 := (c5_write_failure_paths c5adapter sampleRequest sampleBody
    "encode failed" sampleBody).1 rfl
  have h2 := (c5_write_failure_paths closedAdapter sampleRequest sampleBody
    "use of closed network connection" sampleBody).2 rfl rfl
  exact ⟨rfl, h1.1, h1.2.1, rfl, rfl, h2.1⟩

/-- An adapter whose bound message already carries a content-type header. -/
def c8adapter : rpcCodec Bytes (Option TransportMessage) :=
  newRpcCodec ⟨[("Content-Type", "application/json")], []⟩ loopback
    rawCodec none

/-- C8: the envelope passed to the codec has Id, Target, Method from the
request, type Request, and a header of exactly the three canonical keys
carrying id, service and method; after a successful codec write every one
of those entries is merged into the bound transport message's header and
the message body equals the bytes the codec serialized into the write-side
buffer. -/
theorem c8_envelope_and_merge {β σ : Type} (c : rpcCodec β σ)
    (req : Request) (body : β) (bs : Bytes)
    (hw : c.codec.write (writeEnvelope req) body = Except.ok bs) :
    (writeEnvelope req).Id = req.Seq ∧
    (writeEnvelope req).Target = req.Service ∧
    (writeEnvelope req).Method = req.ServiceMethod ∧
    (writeEnvelope req).MType = MessageType.Request ∧
    (writeEnvelope req).Header.map Prod.fst =
      ["X-Micro-Id", "X-Micro-Service", "X-Micro-Method"] ∧
    hget (writeEnvelope req).Header "X-Micro-Id" = req.Seq ∧
    hget (writeEnvelope req).Header "X-Micro-Service" = req.Service ∧
    hget (writeEnvelope req).Header "X-Micro-Method" = req.ServiceMethod ∧
    hget (c.Write req body).2.req.Header "X-Micro-Id" = req.Seq ∧
    hget (c.Write req body).2.req.Header "X-Micro-Service" = req.Service ∧
    hget (c.Write req body).2.req.Header "X-Micro-Method" =
      req.ServiceMethod ∧
    (c.Write req body).2.req.Body = bs ∧
    (c.Write req body).2.wbuf = bs := by
  have hst := rpcWrite_ok_state c req body bs hw
  have hh : (c.Write req body).2.req.Header =
      hmerge c.req.Header (writeEnvelope req).Header := by rw [hst.1]
  have hb : (c.Write req body).2.req.Body = bs := by rw [hst.1]
  refine ⟨rfl, rfl, rfl, rfl, rfl, hget_env_id req, hget_env_service req,
    hget_env_method req, ?_, ?_, ?_, hb, hst.2.1⟩
  · rw [hh, hget_hmerge_env_id]
  · rw [hh, hget_hmerge_env_service]
  · rw [hh, hget_hmerge_env_method]

/-- C8 witness: the concrete envelope and the merged outgoing message for
the sample request through the raw codec. -/
theorem c8_envelope_and_merge_witness :
    c8adapter.codec.write (writeEnvelope sampleRequest) sampleBody =
      Except.ok sampleBody ∧
    hget (c8adapter.Write sampleRequest sampleBody).2.req.Header
      "X-Micro-Id" = "1" ∧
    hget (c8adapter.Write sampleRequest sampleBody).2.req.Header
      "X-Micro-Service" = "Greeter" ∧
    hget (c8adapter.Write sampleRequest sampleBody).2.req.Header
      "X-Micro-Method" = "Greeter.Hello" ∧
    (c8adapter.Write sampleRequest sampleBody).2.req.Body = sampleBody := by
  obtain ⟨-, -, -, -, -, -, -, -, h9, h10, h11, h12, -⟩ :=
    c8_envelope_and_merge c8adapter sampleRequest sampleBody sampleBody rfl
  exact ⟨rfl, h9, h10, h11, h12⟩

/-- One Write preserves every header entry it does not merge. -/
theorem rpcWrite_header_other {β σ : Type} (c : rpcCodec β σ)
    (req : Request) (body : β) (k : String)
    (h1 : k ≠ "X-Micro-Id") (h2 : k ≠ "X-Micro-Service")
    (h3 : k ≠ "X-Micro-Method") :
    hget (c.Write req body).2.req.Header k = hget c.req.Header k := by
  cases hw : c.codec.write (writeEnvelope req) body with
  | error e => rw [(rpcWrite_codec_err c req body e hw).2.2]
  | ok bs =>
      have hh : (c.Write req body).2.req.Header =
          hmerge c.req.Header (writeEnvelope req).Header := by
        rw [(rpcWrite_ok_state c req body bs hw).1]
      rw [hh]
      exact hget_hmerge_env_other _ _ _ h1 h2 h3

/-- C10: Write mutates the bound transport message's header in place and
never clears it — every key outside the three merged canonical keys keeps
its previous value, both after one Write and after a second Write on the
resulting adapter, so header entries accumulate and persist across
successive Write calls. -/
theorem c10_header_accumulation {β σ : Type} (c : rpcCodec β σ)
    (req req2 : Request) (body body2 : β) (k : String)
    (h1 : k ≠ "X-Micro-Id") (h2 : k ≠ "X-Micro-Service")
    (h3 : k ≠ "X-Micro-Method") :
    hget (c.Write req body).2.req.Header k = hget c.req.Header k ∧
    hget ((c.Write req body).2.Write req2 body2).2.req.Header k =
      hget c.req.Header k := by
  have p1 := rpcWrite_header_other c req body k h1 h2 h3
  have p2 := rpcWrite_header_other (c.Write req body).2 req2 body2 k h1 h2 h3
  exact ⟨p1, by rw [p2, p1]⟩

/-- A second sample request for the accumulation scenario. -/
def sampleRequest2 : Request :=
  { Service := "Greeter", ServiceMethod := "Greeter.Bye", Seq := "2" }

/-- C10 witness: the content-type entry present before two successive
Writes is still present, unchanged, afterwards. -/
theorem c10_header_accumulation_witness :
    ("Content-Type" ≠ "X-Micro-Id" ∧ "Content-Type" ≠ "X-Micro-Service" ∧
      "Content-Type" ≠ "X-Micro-Method") ∧
    hget ((c8adapter.Write sampleRequest sampleBody).2.Write sampleRequest2
      sampleBody).2.req.Header "Content-Type" = "application/json" := by
  have h := (c10_header_accumulation c8adapter sampleRequest sampleRequest2
    sampleBody sampleBody "Content-Type" (by decide) (by decide)
    (by decide)).2
  exact ⟨⟨by decide, by decide, by decide⟩, by rw [h]; decide⟩

/-- C9: the registry maps the five content-type keys — protobuf binary,
JSON, JSON-RPC, protobuf RPC and raw byte passthrough — to five distinct
construction functions, lookup succeeds exactly on those string keys, and
the default content type is one of them. -/
theorem c9_codec_registry :
    lookupCodec "application/protobuf" = some NewCodecRef.protoNewCodec ∧
    lookupCodec "application/json" = some NewCodecRef.jsonNewCodec ∧
    lookupCodec "application/json-rpc" = some NewCodecRef.jsonrpcNewCodec ∧
    lookupCodec "application/proto-rpc" = some NewCodecRef.protorpcNewCodec ∧
    lookupCodec "application/octet-stream" = some NewCodecRef.rawNewCodec ∧
    (DefaultCodecs.map Prod.snd).Nodup ∧
    (∀ ct : String, (lookupCodec ct).isSome = true ↔
      ct ∈ DefaultCodecs.map Prod.fst) ∧
    lookupCodec DefaultContentType = some NewCodecRef.protoNewCodec := by
  refine ⟨by decide, by decide, by decide, by decide, by decide, by decide,
    ?_, by decide⟩
  intro ct
  constructor
  · intro h
    cases hf : DefaultCodecs.find? (fun p => p.1 == ct) with
    | none => rw [lookupCodec, hf] at h; simp at h
    | some p =>
        have hmem := List.mem_of_find?_eq_some hf
        have hpred := List.find?_some hf
        have he : p.1 = ct := by simpa using hpred
        subst he
        exact List.mem_map.mpr ⟨p, hmem, rfl⟩
  · intro h
    rcases List.mem_map.mp h with ⟨p, hp, hfst⟩
    subst hfst
    simp only [DefaultCodecs, List.mem_cons, List.not_mem_nil, or_false]
      at hp
    rcases hp with rfl | rfl | rfl | rfl | rfl <;> decide

/-- C9 witness: lookup at one concrete registered key succeeds. -/
theorem c9_codec_registry_witness :
    (lookupCodec "application/json").isSome = true :=
  (c9_codec_registry.2.2.2.2.2.2.1 "application/json").mpr (by decide)

/-- C6: for every request and every codec whose read side inverts its write
side (header parse succeeds, yields the written id and method or leaves
them empty, leaves the error empty, preserves the preset transport header,
and body decode returns the written body), a Write followed by a Read over
the loopback transport yields Seq and ServiceMethod equal to the request's,
an empty Error and the original body. -/
theorem c6_round_trip (β : Type) (cod : Codec β) (req : Request) (body : β)
    (bs rest' : Bytes) (h₀ : HeaderMap) (b₀ : Bytes) (r₀ : Response)
    (out : ReadHeaderOut)
    (hw : cod.write (writeEnvelope req) body = Except.ok bs)
    (hrh : cod.readHeader bs
      (initialEnvelope (hmerge h₀ (writeEnvelope req).Header))
      MessageType.Response = out)
    (herr : out.err = none)
    (hid : out.msg.Id = req.Seq ∨ out.msg.Id = "")
    (hm : out.msg.Method = req.ServiceMethod ∨ out.msg.Method = "")
    (he : out.msg.Error = "")
    (hpres : out.msg.Header = hmerge h₀ (writeEnvelope req).Header)
    (hrb : cod.readBody out.rest = Except.ok (body, rest'))
    (hne : hget h₀ "X-Micro-Error" = "") :
    ((newRpcCodec ⟨h₀, b₀⟩ loopback cod none).Write req body).1 = none ∧
    ((((newRpcCodec ⟨h₀, b₀⟩ loopback cod none).Write req body).2.Read
      r₀).err = none) ∧
    ((((newRpcCodec ⟨h₀, b₀⟩ loopback cod none).Write req body).2.Read
      r₀).resp.Seq = req.Seq) ∧
    ((((newRpcCodec ⟨h₀, b₀⟩ loopback cod none).Write req body).2.Read
      r₀).resp.ServiceMethod = req.ServiceMethod) ∧
    ((((newRpcCodec ⟨h₀, b₀⟩ loopback cod none).Write req body).2.Read
      r₀).resp.Error = "") ∧
    ((((newRpcCodec ⟨h₀, b₀⟩ loopback cod none).Write req body).2.Read
      r₀).body = some body) := by
  have hs : (newRpcCodec ⟨h₀, b₀⟩ loopback cod none).client.send
      (newRpcCodec ⟨h₀, b₀⟩ loopback cod none).clientState
      ⟨hmerge (newRpcCodec ⟨h₀, b₀⟩ loopback cod
          (none : Option TransportMessage)).req.Header
        (writeEnvelope req).Header, bs⟩ =
      Except.ok (some ⟨hmerge h₀ (writeEnvelope req).Header, bs⟩) := rfl
  have hwr := rpcWrite_send_ok (newRpcCodec ⟨h₀, b₀⟩ loopback cod none) req
    body bs (some ⟨hmerge h₀ (writeEnvelope req).Header, bs⟩) hw hs
  have hst := rpcWrite_ok_state (newRpcCodec ⟨h₀, b₀⟩ loopback cod none) req
    body bs hw
  have hrecv : ((newRpcCodec ⟨h₀, b₀⟩ loopback cod none).Write req
      body).2.client.recv
      ((newRpcCodec ⟨h₀, b₀⟩ loopback cod none).Write req
        body).2.clientState =
      Except.ok ((⟨hmerge h₀ (writeEnvelope req).Header, bs⟩ :
        TransportMessage), (none : Option TransportMessage)) := by
    rw [hst.2.2.1, hwr.2]
    rfl
  have hrh' : ((newRpcCodec ⟨h₀, b₀⟩ loopback cod none).Write req
      body).2.codec.readHeader bs
      (initialEnvelope (hmerge h₀ (writeEnvelope req).Header))
      MessageType.Response = out := by
    rw [hst.2.2.2]; exact hrh
  have hrb' : ((newRpcCodec ⟨h₀, b₀⟩ loopback cod none).Write req
      body).2.codec.readBody out.rest = Except.ok (body, rest') := by
    rw [hst.2.2.2]; exact hrb
  have hfields := rpcRead_resp_fields
    ((newRpcCodec ⟨h₀, b₀⟩ loopback cod none).Write req body).2 r₀
    ⟨hmerge h₀ (writeEnvelope req).Header, bs⟩ none out hrecv hrh'
  have hok := rpcRead_ok
    ((newRpcCodec ⟨h₀, b₀⟩ loopback cod none).Write req body).2 r₀
    ⟨hmerge h₀ (writeEnvelope req).Header, bs⟩ none out body rest' hrecv
    hrh' herr hrb'
  refine ⟨hwr.1, hok.1, ?_, ?_, ?_, hok.2⟩
  · rw [hfields.2.2, hpres, hget_hmerge_env_id]
    rcases hid with hid | hid
    · rw [hid]; simp
    · rw [hid]; simp
  · rw [hfields.2.1, hpres, hget_hmerge_env_method]
    rcases hm with hm | hm
    · rw [hm]; simp
    · rw [hm]; simp
  · rw [hfields.1, if_pos he, hpres,
      hget_hmerge_env_other h₀ req "X-Micro-Error" (by decide) (by decide)
        (by decide), hne]

/-- C6 witness: the end-to-end scenario with the raw byte-passthrough codec
over the loopback transport. -/
theorem c6_round_trip_witness :
    rawCodec.write (writeEnvelope sampleRequest) sampleBody =
      Except.ok sampleBody ∧
    ((newRpcCodec ⟨[], []⟩ loopback rawCodec none).Write sampleRequest
      sampleBody).1 = none ∧
    (((newRpcCodec ⟨[], []⟩ loopback rawCodec none).Write sampleRequest
      sampleBody).2.Read ⟨"", "", ""⟩).resp.ServiceMethod =
      "Greeter.Hello" ∧
    (((newRpcCodec ⟨[], []⟩ loopback rawCodec none).Write sampleRequest
      sampleBody).2.Read ⟨"", "", ""⟩).resp.Seq = "1" ∧
    (((newRpcCodec ⟨[], []⟩ loopback rawCodec none).Write sampleRequest
      sampleBody).2.Read ⟨"", "", ""⟩).resp.Error = "" ∧
    (((newRpcCodec ⟨[], []⟩ loopback rawCodec none).Write sampleRequest
      sampleBody).2.Read ⟨"", "", ""⟩).body = some sampleBody := by
  obtain ⟨h1, h2, h3, h4, h5, h6⟩ := c6_round_trip Bytes rawCodec
    sampleRequest sampleBody sampleBody [] [] [] ⟨"", "", ""⟩
    ⟨none, initialEnvelope (hmerge [] (writeEnvelope sampleRequest).Header),
     sampleBody⟩
    rfl rfl rfl (Or.inr rfl) (Or.inr rfl) rfl rfl rfl rfl
  exact ⟨rfl, h1, h4, h3, h5, h6⟩
